import Mathlib

/-!
Verification of `seed_revenue.py`, a one-shot revenue data seeder.

The Python script is shallowly embedded here:
* Python float arithmetic is modelled over `ℚ` (the formula is exact real
  arithmetic in the spec's reading; all claimed bounds have margins far larger
  than any float rounding).
* Python's builtin `round` (round-half-to-even, returning an int) is `pyRound`.
* The two dict lookups `QUARTERLY_MULTIPLIERS[quarter]` and
  `YEAR_MULTIPLIERS[year]` can raise `KeyError`, so they are `Option`-valued
  and `generate_revenue` returns `Option ℤ`.
* The global `random` module is modelled two ways: an oracle version where the
  two uniform draws of a call are explicit arguments, and a state-threaded
  version `generate_revenue_rand` over an abstract source `RandomApi`, where
  `random.seed(s)` replaces the global state by a function of `s` alone.
* Database and console effects in `main` are modelled by an environment
  `DbWorld` giving each external call's outcome, with `psycopg2.Error`
  distinguished from other exceptions in `PyErr`.
-/

/-- Python's builtin `round` on an exact value: round half to even. -/
def pyRound (x : ℚ) : ℤ :=
  if x - ⌊x⌋ < 1/2 then ⌊x⌋
  else if 1/2 < x - ⌊x⌋ then ⌊x⌋ + 1
  else if ⌊x⌋ % 2 = 0 then ⌊x⌋ else ⌊x⌋ + 1

/-- `BRANCHES` dict from the source, in insertion order:
code, display name, size multiplier. -/
def BRANCHES : List (String × String × ℚ) :=
  [("HCM", "Ho Chi Minh", 1),
   ("HN", "Ha Noi", 85/100),
   ("DN", "Da Nang", 6/10)]

/-- `QUARTERLY_MULTIPLIERS` dict; lookup of a missing key is `none`
(Python raises `KeyError`). -/
def QUARTERLY_MULTIPLIERS : ℕ → Option ℚ
  | 1 => some (90/100)
  | 2 => some 1
  | 3 => some (105/100)
  | 4 => some (115/100)
  | _ => none

/-- `YEAR_MULTIPLIERS` dict; lookup of a missing key is `none`. -/
def YEAR_MULTIPLIERS : ℤ → Option ℚ := fun y =>
  if y = 2024 then some 1
  else if y = 2025 then some (108/100)
  else none

def BASE_REVENUE_MIN : ℚ := 12000000000

def BASE_REVENUE_MAX : ℚ := 20000000000

def NOISE_RANGE : ℚ := 10/100

/-- `get_quarter` from the source: `(month - 1) // 3 + 1`. -/
def get_quarter (month : ℕ) : ℕ := (month - 1) / 3 + 1

/-- A Python `datetime.date`-like triple. -/
structure PyDate where
  year : ℤ
  month : ℕ
  day : ℕ
deriving DecidableEq, Repr

/-- `calendar.isleap` (used by `calendar.monthrange`). -/
def isleap (y : ℤ) : Bool := y % 4 == 0 && (y % 100 != 0 || y % 400 == 0)

/-- `calendar.mdays` table (index 0 unused). -/
def mdays : List ℕ := [0, 31, 28, 31, 30, 31, 30, 31, 31, 30, 31, 30, 31]

/-- Number of days in the month, as returned in `calendar.monthrange(y, m)[1]`. -/
def monthrange_days (y : ℤ) (m : ℕ) : ℕ :=
  mdays.getD m 0 + (if m = 2 ∧ isleap y then 1 else 0)

/-- `get_last_day_of_month` from the source. -/
def get_last_day_of_month (y : ℤ) (m : ℕ) : PyDate :=
  ⟨y, m, monthrange_days y m⟩

/-- Gregorian calendar-date validity, written from the standard month-length
rule (independently of the `mdays` table above). -/
def isValidDate (y : ℤ) (m d : ℕ) : Bool :=
  1 ≤ m && m ≤ 12 && 1 ≤ d &&
    d ≤ (if m = 2 then (if isleap y then 29 else 28)
         else if m = 4 ∨ m = 6 ∨ m = 9 ∨ m = 11 then 30 else 31)

/-- `generate_revenue` from the source, with the call's two uniform draws
(`base` from `random.uniform(BASE_REVENUE_MIN, BASE_REVENUE_MAX)`, `noise`
from `random.uniform(1 - NOISE_RANGE, 1 + NOISE_RANGE)`) passed as oracle
arguments. The two dict lookups may fail, so the result is an `Option`. -/
def generate_revenue (branch_multiplier : ℚ) (quarter : ℕ) (year : ℤ)
    (base noise : ℚ) : Option ℤ :=
  match QUARTERLY_MULTIPLIERS quarter with
  | none => none
  | some qm =>
    match YEAR_MULTIPLIERS year with
    | none => none
    | some ym =>
      some (pyRound (base * branch_multiplier * qm * ym * noise / 1000000)
              * 1000000)

/-- The quarterly table as a total function (spec-side reference for the
closed-form formula; values outside 1..4 are irrelevant). -/
def quarterly_ref : ℕ → ℚ
  | 1 => 90/100
  | 2 => 1
  | 3 => 105/100
  | 4 => 115/100
  | _ => 0

/-- The year table as a total function (spec-side reference). -/
def year_ref (y : ℤ) : ℚ :=
  if y = 2024 then 1 else if y = 2025 then 108/100 else 0

/-- Spec-side reference value of the revenue formula:
`round((base * f * QUARTERLY_MULTIPLIERS[q] * YEAR_MULTIPLIERS[y] * noise)
 / 1_000_000) * 1_000_000`. -/
def generate_revenue_spec (f : ℚ) (q : ℕ) (y : ℤ) (base noise : ℚ) : ℤ :=
  pyRound (base * f * quarterly_ref q * year_ref y * noise / 1000000) * 1000000

/-- An abstract model of the global `random` module: `seedFn s` is the state
installed by `random.seed(s)` (it discards the previous state), and `uniform`
draws one value and advances the state. -/
structure RandomApi (σ : Type) where
  seedFn : ℤ → σ
  uniform : ℚ → ℚ → σ → ℚ × σ

/-- `generate_revenue` with the global random state threaded explicitly:
optional reseed, draw `base`, apply the three multipliers (dict lookups may
fail), draw `noise`, round to the nearest million. -/
def generate_revenue_rand {σ : Type} (g : RandomApi σ) (branch_multiplier : ℚ)
    (quarter : ℕ) (year : ℤ) (seed : Option ℤ) (s0 : σ) : Option ℤ × σ :=
  let s1 := match seed with
    | some sd => g.seedFn sd
    | none => s0
  let p := g.uniform BASE_REVENUE_MIN BASE_REVENUE_MAX s1
  match QUARTERLY_MULTIPLIERS quarter with
  | none => (none, p.2)
  | some qm =>
    match YEAR_MULTIPLIERS year with
    | none => (none, p.2)
    | some ym =>
      let q := g.uniform (1 - NOISE_RANGE) (1 + NOISE_RANGE) p.2
      (some (pyRound (p.1 * branch_multiplier * qm * ym * q.1 / 1000000)
               * 1000000), q.2)

/-- One database row as built by `seed_data`:
(branch_code, branch_name, report_date, revenue_vnd). -/
abbrev Record := String × String × PyDate × ℤ

/-- The uniqueness key of a record: (branch_code, report_date). -/
def recordKey (r : Record) : String × PyDate := (r.1, r.2.2.1)

def yearsList : List ℤ := [2024, 2025]

/-- `range(1, 13)`. -/
def monthsList : List ℕ := [1, 2, 3, 4, 5, 6, 7, 8, 9, 10, 11, 12]

/-- The loop iterations of `seed_data`, in loop order: year outermost,
month next, branch (dict insertion order) innermost. -/
def allSteps : List (ℤ × ℕ × String × String × ℚ) :=
  yearsList.flatMap fun y => monthsList.flatMap fun m => BRANCHES.map fun b =>
    (y, m, b)

/-- The body of one `seed_data` iteration: derive quarter and report date,
generate the revenue (its two draws supplied by the oracle `o`, keyed by
year, month and branch code), build the row. -/
def recordOf (o : ℤ → ℕ → String → ℚ × ℚ) (s : ℤ × ℕ × String × String × ℚ) :
    Option Record :=
  let quarter := get_quarter s.2.1
  let report_date := get_last_day_of_month s.1 s.2.1
  let draws := o s.1 s.2.1 s.2.2.1
  (generate_revenue s.2.2.2.2 quarter s.1 draws.1 draws.2).map fun revenue =>
    (s.2.2.1, s.2.2.2.1, report_date, revenue)

/-- The record-accumulating loop of `seed_data`; a failure in any iteration
aborts the whole run (the Python exception propagates). -/
def seedLoop (o : ℤ → ℕ → String → ℚ × ℚ) :
    List (ℤ × ℕ × String × String × ℚ) → Option (List Record)
  | [] => some []
  | s :: rest =>
    match recordOf o s, seedLoop o rest with
    | some r, some rs => some (r :: rs)
    | _, _ => none

/-- `seed_data` from the source: the list of 72 records it builds and
bulk-inserts, for a given draw oracle `o`. -/
def seed_data (o : ℤ → ℕ → String → ℚ × ℚ) : Option (List Record) :=
  seedLoop o allSteps

/-- Total closed form of one generated record (the generation never fails on
the loop's inputs; proved below). -/
def recordTotal (o : ℤ → ℕ → String → ℚ × ℚ)
    (s : ℤ × ℕ × String × String × ℚ) : Record :=
  let draws := o s.1 s.2.1 s.2.2.1
  (s.2.2.1, s.2.2.2.1, get_last_day_of_month s.1 s.2.1,
    generate_revenue_spec s.2.2.2.2 (get_quarter s.2.1) s.1 draws.1 draws.2)

/-- The full record list produced by a successful `seed_data` run. -/
def seedRecords (o : ℤ → ℕ → String → ℚ × ℚ) : List Record :=
  allSteps.map (recordTotal o)

/-- The uniqueness key of one loop step. -/
def stepKey (s : ℤ × ℕ × String × String × ℚ) : String × PyDate :=
  (s.2.2.1, get_last_day_of_month s.1 s.2.1)

/-- The (branch_code, report_date) keys in generation order: years 2024 then
2025 outermost, months 1..12 next, branches HCM, HN, DN innermost. -/
def orderedKeys : List (String × PyDate) :=
  yearsList.flatMap fun y => monthsList.flatMap fun m =>
    ["HCM", "HN", "DN"].map fun c => (c, get_last_day_of_month y m)

/-- The rows shown by `print_sample_data`: `records[:3] + records[-3:]`. -/
def sample_sel (records : List Record) : List Record :=
  records.take 3 ++ records.drop (records.length - 3)

/-- A Python exception as seen by `main`'s two handlers: a `psycopg2.Error`
or any other exception, each carrying its message. -/
inductive PyErr where
  | dbError : String → PyErr
  | otherError : String → PyErr
deriving DecidableEq

/-- Outcomes of the external calls `main` makes, in program order: connect,
create table, bulk insert, commit. -/
structure DbWorld where
  connectR : Except PyErr Unit
  createR : Except PyErr Unit
  insertR : Except PyErr Unit
  commitR : Except PyErr Unit

/-- Console lines of `main` (payload-free markers; the two error lines carry
the exception message). -/
inductive Line where
  | startBanner
  | connected
  | tableCreated
  | inserted (n : ℕ)
  | committed
  | sampleShown
  | doneBanner
  | dbErrorMsg (s : String)
  | errorMsg (s : String)
deriving DecidableEq

/-- The `try` body of `main`: runs the stages in order, collecting console
lines; stops at the first raised exception. -/
def mainBody (w : DbWorld) : List Line × Option PyErr :=
  match w.connectR with
  | .error e => ([.startBanner], some e)
  | .ok _ =>
    match w.createR with
    | .error e => ([.startBanner, .connected], some e)
    | .ok _ =>
      match w.insertR with
      | .error e => ([.startBanner, .connected, .tableCreated], some e)
      | .ok _ =>
        match w.commitR with
        | .error e =>
          ([.startBanner, .connected, .tableCreated, .inserted 72], some e)
        | .ok _ =>
          ([.startBanner, .connected, .tableCreated, .inserted 72, .committed,
            .sampleShown, .doneBanner], none)

/-- The console line printed by the matching `except` handler. -/
def errLine : PyErr → Line
  | .dbError s => .dbErrorMsg s
  | .otherError s => .errorMsg s

/-- `main` from the source: the `try` body wrapped in the two handlers, each
of which prints its marker line and re-raises. Returns the console transcript
and the process outcome. -/
def main_model (w : DbWorld) : List Line × Except PyErr Unit :=
  match mainBody w with
  | (ls, none) => (ls, .ok ())
  | (ls, some e) => (ls ++ [errLine e], .error e)

/-- Is a console line one of the two handlers' error messages? -/
def isErrLine : Line → Bool
  | .dbErrorMsg _ => true
  | .errorMsg _ => true
  | _ => false

/-- Number of error-marker lines in a transcript. -/
def errCount (ls : List Line) : ℕ := (ls.filter isErrLine).length

lemma le_pyRound (n : ℤ) (x : ℚ) (h : (n : ℚ) ≤ x) : n ≤ pyRound x := by
  have hf : n ≤ ⌊x⌋ := Int.le_floor.2 h
  unfold pyRound
  split_ifs <;> omega

lemma pyRound_le (n : ℤ) (x : ℚ) (h : x ≤ (n : ℚ)) : pyRound x ≤ n := by
  have hf : ⌊x⌋ ≤ n := by
    have h1 : (⌊x⌋ : ℚ) ≤ (n : ℚ) := le_trans (Int.floor_le x) h
    exact_mod_cast h1
  unfold pyRound
  split_ifs with h1 h2 h3
  · exact hf
  · have hx : (⌊x⌋ : ℚ) + 1/2 ≤ x := by push_neg at h1; linarith
    have h5 : (⌊x⌋ : ℚ) < (n : ℚ) := by linarith
    have h6 : ⌊x⌋ < n := by exact_mod_cast h5
    omega
  · exact hf
  · have hx : (⌊x⌋ : ℚ) + 1/2 ≤ x := by push_neg at h1; linarith
    have h5 : (⌊x⌋ : ℚ) < (n : ℚ) := by linarith
    have h6 : ⌊x⌋ < n := by exact_mod_cast h5
    omega

lemma generate_revenue_eq_spec (f : ℚ) (q : ℕ) (y : ℤ) (base noise : ℚ)
    (hq : q = 1 ∨ q = 2 ∨ q = 3 ∨ q = 4) (hy : y = 2024 ∨ y = 2025) :
    generate_revenue f q y base noise =
      some (generate_revenue_spec f q y base noise) := by
  rcases hq with rfl | rfl | rfl | rfl <;> rcases hy with rfl | rfl <;> rfl

/-- C1: for every branch multiplier, valid quarter and year, and every pair of
uniform draws (base from [12e9, 20e9], noise from [0.90, 1.10]),
`generate_revenue` returns exactly the reference value
`round((base * f * QUARTERLY_MULTIPLIERS[q] * YEAR_MULTIPLIERS[y] * noise)
 / 1_000_000) * 1_000_000` as an integer: the six algorithm steps are applied
in exactly that composition. -/
theorem generate_revenue_formula (f : ℚ) (q : ℕ) (y : ℤ) (base noise : ℚ)
    (hq : q = 1 ∨ q = 2 ∨ q = 3 ∨ q = 4) (hy : y = 2024 ∨ y = 2025)
    (hb1 : BASE_REVENUE_MIN ≤ base) (hb2 : base ≤ BASE_REVENUE_MAX)
    (hn1 : 1 - NOISE_RANGE ≤ noise) (hn2 : noise ≤ 1 + NOISE_RANGE) :
    generate_revenue f q y base noise =
      some (generate_revenue_spec f q y base noise) :=
  generate_revenue_eq_spec f q y base noise hq hy

theorem generate_revenue_formula_witness :
    generate_revenue 1 4 2025 15000000000 1 =
      some (generate_revenue_spec 1 4 2025 15000000000 1) :=
  generate_revenue_formula 1 4 2025 15000000000 1 (by norm_num) (by norm_num)
    (by norm_num [BASE_REVENUE_MIN]) (by norm_num [BASE_REVENUE_MAX])
    (by norm_num [NOISE_RANGE]) (by norm_num [NOISE_RANGE])

/-- C10: for branch multiplier 0, `generate_revenue` returns exactly 0 for
every valid quarter and year and every pair of draws. -/
theorem generate_revenue_zero_multiplier (q : ℕ) (y : ℤ) (base noise : ℚ)
    (hq : q = 1 ∨ q = 2 ∨ q = 3 ∨ q = 4) (hy : y = 2024 ∨ y = 2025) :
    generate_revenue 0 q y base noise = some 0 := by
  rcases hq with rfl | rfl | rfl | rfl <;> rcases hy with rfl | rfl <;>
    norm_num [generate_revenue, QUARTERLY_MULTIPLIERS, YEAR_MULTIPLIERS,
      pyRound]

theorem generate_revenue_zero_multiplier_witness :
    generate_revenue 0 1 2024 15000000000 1 = some 0 :=
  generate_revenue_zero_multiplier 1 2024 15000000000 1 (Or.inl rfl)
    (Or.inl rfl)

/-- C4 counterexample: the claim allows any int `year`, but the lookup
`YEAR_MULTIPLIERS[2023]` raises `KeyError`: `generate_revenue` does not
complete normally at year 2023 even with all other arguments in contract. -/
theorem generate_revenue_year_2023_raises :
    generate_revenue (1/2) 2 2023 15000000000 1 = none := rfl

/-- C4 amended: for branch factor in [0,1], quarter in {1,2,3,4} and year
restricted to the table's keys {2024, 2025}, `generate_revenue` completes
without raising. -/
theorem generate_revenue_no_failure (f : ℚ) (q : ℕ) (y : ℤ) (base noise : ℚ)
    (hf1 : 0 ≤ f) (hf2 : f ≤ 1)
    (hq : q = 1 ∨ q = 2 ∨ q = 3 ∨ q = 4) (hy : y = 2024 ∨ y = 2025) :
    (generate_revenue f q y base noise).isSome = true := by
  rcases hq with rfl | rfl | rfl | rfl <;> rcases hy with rfl | rfl <;> rfl

theorem generate_revenue_no_failure_witness :
    (generate_revenue (1/2) 2 2024 15000000000 1).isSome = true :=
  generate_revenue_no_failure (1/2) 2 2024 15000000000 1 (by norm_num)
    (by norm_num) (by norm_num) (Or.inl rfl)

/-- C6: `get_quarter` implements `(month - 1) // 3 + 1`, mapping months 1-3 to
quarter 1, 4-6 to 2, 7-9 to 3 and 10-12 to 4, with the enumerated values
1→1, 3→1, 4→2, 6→2, 7→3, 9→3, 10→4, 12→4. -/
theorem get_quarter_correct :
    (∀ m : ℕ, 1 ≤ m → m ≤ 12 → get_quarter m = (m - 1) / 3 + 1) ∧
    (∀ m : ℕ, 1 ≤ m → m ≤ 3 → get_quarter m = 1) ∧
    (∀ m : ℕ, 4 ≤ m → m ≤ 6 → get_quarter m = 2) ∧
    (∀ m : ℕ, 7 ≤ m → m ≤ 9 → get_quarter m = 3) ∧
    (∀ m : ℕ, 10 ≤ m → m ≤ 12 → get_quarter m = 4) ∧
    get_quarter 1 = 1 ∧ get_quarter 3 = 1 ∧ get_quarter 4 = 2 ∧
    get_quarter 6 = 2 ∧ get_quarter 7 = 3 ∧ get_quarter 9 = 3 ∧
    get_quarter 10 = 4 ∧ get_quarter 12 = 4 := by
  refine ⟨fun m _ _ => rfl, ?_, ?_, ?_, ?_, rfl, rfl, rfl, rfl, rfl, rfl,
    rfl, rfl⟩ <;>
    (intro m h1 h2; unfold get_quarter; omega)

theorem get_quarter_correct_witness :
    get_quarter 5 = (5 - 1) / 3 + 1 ∧ get_quarter 11 = 4 :=
  ⟨get_quarter_correct.1 5 (by norm_num) (by norm_num),
   get_quarter_correct.2.2.2.2.1 11 (by norm_num) (by norm_num)⟩

/-- C8: if a seed is supplied, the random source is reseeded immediately
before the base draw, so two calls with the same seed agree (same draws, same
result, same final state) from any two prior global states; the seeded call
behaves exactly like an unseeded call started from the reseeded state. -/
theorem generate_revenue_seed_reproducible (σ : Type) (g : RandomApi σ)
    (f : ℚ) (q : ℕ) (y : ℤ) (sd : ℤ) (s1 s2 : σ) :
    generate_revenue_rand g f q y (some sd) s1 =
      generate_revenue_rand g f q y (some sd) s2 ∧
    generate_revenue_rand g f q y (some sd) s1 =
      generate_revenue_rand g f q y none (g.seedFn sd) :=
  ⟨rfl, rfl⟩

lemma mul_le_mul_bounds {a b la ua lb ub : ℚ} (ha1 : la ≤ a) (ha2 : a ≤ ua)
    (hb1 : lb ≤ b) (hb2 : b ≤ ub) (hla : 0 ≤ la) (hlb : 0 ≤ lb) :
    la * lb ≤ a * b ∧ a * b ≤ ua * ub := by
  constructor
  · nlinarith [mul_nonneg (sub_nonneg.2 ha1) (le_trans hlb hb1),
      mul_nonneg hla (sub_nonneg.2 hb1)]
  · nlinarith [mul_nonneg (sub_nonneg.2 ha2) (le_trans hlb (le_trans hb1 hb2)),
      mul_nonneg (le_trans hla ha1) (sub_nonneg.2 hb2)]

lemma revenue_product_bounds (f qm ym base noise : ℚ)
    (hf1 : 6/10 ≤ f) (hf2 : f ≤ 1)
    (hq1 : 9/10 ≤ qm) (hq2 : qm ≤ 115/100)
    (hy1 : 1 ≤ ym) (hy2 : ym ≤ 108/100)
    (hb1 : 12000000000 ≤ base) (hb2 : base ≤ 20000000000)
    (hn1 : 9/10 ≤ noise) (hn2 : noise ≤ 11/10) :
    5832000000 ≤ base * f * qm * ym * noise ∧
      base * f * qm * ym * noise ≤ 27324000000 := by
  obtain ⟨l1, u1⟩ := mul_le_mul_bounds hb1 hb2 hf1 hf2 (by norm_num)
    (by norm_num)
  obtain ⟨l2, u2⟩ := mul_le_mul_bounds l1 u1 hq1 hq2 (by norm_num)
    (by norm_num)
  obtain ⟨l3, u3⟩ := mul_le_mul_bounds l2 u2 hy1 hy2 (by norm_num)
    (by norm_num)
  obtain ⟨l4, u4⟩ := mul_le_mul_bounds l3 u3 hn1 hn2 (by norm_num)
    (by norm_num)
  constructor
  · linarith [l4]
  · linarith [u4]

lemma pyRound_million_bounds (x : ℚ) (h1 : 5832000000 ≤ x)
    (h2 : x ≤ 27324000000) :
    (1000000 : ℤ) ∣ pyRound (x / 1000000) * 1000000 ∧
    (5832000000 : ℤ) ≤ pyRound (x / 1000000) * 1000000 ∧
    pyRound (x / 1000000) * 1000000 ≤ 27324000000 := by
  have hlow : (5832 : ℤ) ≤ pyRound (x / 1000000) := by
    apply le_pyRound
    rw [le_div_iff₀ (by norm_num : (0 : ℚ) < 1000000)]
    push_cast
    linarith
  have hhigh : pyRound (x / 1000000) ≤ 27324 := by
    apply pyRound_le
    rw [div_le_iff₀ (by norm_num : (0 : ℚ) < 1000000)]
    push_cast
    linarith
  exact ⟨⟨pyRound (x / 1000000), by ring⟩, by omega, by omega⟩

lemma quarterly_lookup (q : ℕ) (hq : q = 1 ∨ q = 2 ∨ q = 3 ∨ q = 4) :
    ∃ qm, QUARTERLY_MULTIPLIERS q = some qm ∧ 9/10 ≤ qm ∧ qm ≤ 115/100 := by
  rcases hq with rfl | rfl | rfl | rfl <;>
    exact ⟨_, rfl, by norm_num, by norm_num⟩

lemma year_lookup (y : ℤ) (hy : y = 2024 ∨ y = 2025) :
    ∃ ym, YEAR_MULTIPLIERS y = some ym ∧ 1 ≤ ym ∧ ym ≤ 108/100 := by
  rcases hy with rfl | rfl <;> exact ⟨_, rfl, by norm_num, by norm_num⟩

/-- C2: for a branch multiplier in {1.0, 0.85, 0.6}, a valid quarter and year
and any draws in their uniform ranges, `generate_revenue` returns an exact
multiple of 1,000,000 lying in the inclusive bound
[12e9 * 0.6 * 0.90 * 1.0 * 0.90, 20e9 * 1.0 * 1.15 * 1.08 * 1.10]
= [5,832,000,000, 27,324,000,000]. -/
theorem generate_revenue_bounds (f : ℚ) (q : ℕ) (y : ℤ) (base noise : ℚ)
    (hf : f = 1 ∨ f = 85/100 ∨ f = 6/10)
    (hq : q = 1 ∨ q = 2 ∨ q = 3 ∨ q = 4) (hy : y = 2024 ∨ y = 2025)
    (hb1 : 12000000000 ≤ base) (hb2 : base ≤ 20000000000)
    (hn1 : 9/10 ≤ noise) (hn2 : noise ≤ 11/10) :
    ∃ r : ℤ, generate_revenue f q y base noise = some r ∧
      (1000000 : ℤ) ∣ r ∧ (5832000000 : ℤ) ≤ r ∧ r ≤ 27324000000 := by
  obtain ⟨qm, hqm, hq1, hq2⟩ := quarterly_lookup q hq
  obtain ⟨ym, hym, hy1, hy2⟩ := year_lookup y hy
  have hf1 : 6/10 ≤ f := by rcases hf with rfl | rfl | rfl <;> norm_num
  have hf2 : f ≤ 1 := by rcases hf with rfl | rfl | rfl <;> norm_num
  have hx := revenue_product_bounds f qm ym base noise hf1 hf2 hq1 hq2 hy1 hy2
    hb1 hb2 hn1 hn2
  obtain ⟨hd, hl, hh⟩ := pyRound_million_bounds _ hx.1 hx.2
  refine ⟨pyRound (base * f * qm * ym * noise / 1000000) * 1000000, ?_, hd,
    hl, hh⟩
  simp only [generate_revenue, hqm, hym]

theorem generate_revenue_bounds_witness :
    ∃ r : ℤ, generate_revenue 1 1 2024 12000000000 1 = some r ∧
      (1000000 : ℤ) ∣ r ∧ (5832000000 : ℤ) ≤ r ∧ r ≤ 27324000000 :=
  generate_revenue_bounds 1 1 2024 12000000000 1 (Or.inl rfl) (Or.inl rfl)
    (Or.inl rfl) (by norm_num) (by norm_num) (by norm_num) (by norm_num)

/-- C5: for each year in {2024, 2025} and month 1..12,
`get_last_day_of_month` returns the last valid calendar day of that month
(a valid date whose successor day is not valid); in particular
(2024, 2) gives 2024-02-29 (leap year) and (2025, 2) gives 2025-02-28. -/
theorem get_last_day_correct :
    (∀ (y : ℤ) (m : ℕ), (y = 2024 ∨ y = 2025) → 1 ≤ m → m ≤ 12 →
      (get_last_day_of_month y m).year = y ∧
      (get_last_day_of_month y m).month = m ∧
      isValidDate y m (get_last_day_of_month y m).day = true ∧
      ∀ d : ℕ, (get_last_day_of_month y m).day < d →
        isValidDate y m d = false) ∧
    get_last_day_of_month 2024 2 = ⟨2024, 2, 29⟩ ∧
    get_last_day_of_month 2025 2 = ⟨2025, 2, 28⟩ := by
  refine ⟨?_, rfl, rfl⟩
  rintro y m (rfl | rfl) h1 h2 <;> interval_cases m <;>
    refine ⟨rfl, rfl, by decide, ?_⟩ <;>
    (intro d hd;
     norm_num [get_last_day_of_month, monthrange_days, mdays, isleap] at hd;
     simp only [isValidDate, isleap];
     norm_num;
     omega)

theorem get_last_day_correct_witness :
    isValidDate 2024 2 (get_last_day_of_month 2024 2).day = true ∧
      isValidDate 2024 2 30 = false :=
  ⟨(get_last_day_correct.1 2024 2 (Or.inl rfl) (by norm_num)
      (by norm_num)).2.2.1,
   (get_last_day_correct.1 2024 2 (Or.inl rfl) (by norm_num)
      (by norm_num)).2.2.2 30 (by decide)⟩

lemma get_quarter_mem (m : ℕ) (h1 : 1 ≤ m) (h2 : m ≤ 12) :
    get_quarter m = 1 ∨ get_quarter m = 2 ∨ get_quarter m = 3 ∨
      get_quarter m = 4 := by
  unfold get_quarter
  omega

lemma recordOf_eq (o : ℤ → ℕ → String → ℚ × ℚ)
    (s : ℤ × ℕ × String × String × ℚ) (hy : s.1 = 2024 ∨ s.1 = 2025)
    (hm1 : 1 ≤ s.2.1) (hm2 : s.2.1 ≤ 12) :
    recordOf o s = some (recordTotal o s) := by
  simp only [recordOf, recordTotal,
    generate_revenue_eq_spec _ _ _ _ _ (get_quarter_mem s.2.1 hm1 hm2) hy]
  rfl

lemma allSteps_ok : ∀ s ∈ allSteps,
    (s.1 = 2024 ∨ s.1 = 2025) ∧ 1 ≤ s.2.1 ∧ s.2.1 ≤ 12 := by decide

lemma seedLoop_eq (o : ℤ → ℕ → String → ℚ × ℚ) :
    ∀ l : List (ℤ × ℕ × String × String × ℚ),
      (∀ s ∈ l, (s.1 = 2024 ∨ s.1 = 2025) ∧ 1 ≤ s.2.1 ∧ s.2.1 ≤ 12) →
      seedLoop o l = some (l.map (recordTotal o)) := by
  intro l
  induction l with
  | nil => intro _; rfl
  | cons s rest ih =>
    intro hl
    obtain ⟨h1, h2, h3⟩ := hl s (List.mem_cons_self s rest)
    have hr := recordOf_eq o s h1 h2 h3
    have ht := ih fun x hx => hl x (List.mem_cons_of_mem s hx)
    simp [seedLoop, hr, ht]

lemma seed_data_eq (o : ℤ → ℕ → String → ℚ × ℚ) :
    seed_data o = some (seedRecords o) :=
  seedLoop_eq o allSteps allSteps_ok

lemma seedRecords_length (o : ℤ → ℕ → String → ℚ × ℚ) :
    (seedRecords o).length = 72 := by
  rw [seedRecords, List.length_map]
  rfl

lemma seedRecords_keys (o : ℤ → ℕ → String → ℚ × ℚ) :
    (seedRecords o).map recordKey = orderedKeys := by
  rw [seedRecords, List.map_map]
  rfl

/-- C3: for every possible sequence of random draws, `seed_data` builds
exactly 72 records (2 years times 12 months times 3 branches) and no two of
them share the same (branch_code, report_date) key. -/
theorem seed_data_72_unique (o : ℤ → ℕ → String → ℚ × ℚ) :
    ∃ rs : List Record, seed_data o = some rs ∧ rs.length = 72 ∧
      (rs.map recordKey).Nodup := by
  refine ⟨seedRecords o, seed_data_eq o, seedRecords_length o, ?_⟩
  rw [seedRecords_keys]
  decide

/-- C7: for every possible sequence of random draws, the records of
`seed_data` are ordered by the nested iteration (years 2024 then 2025
outermost, months 1..12 next, branches HCM, HN, DN innermost), so the sample
selection `records[:3] + records[-3:]` used by `print_sample_data` is the
three branches of January 2024 followed by the three branches of
December 2025. -/
theorem seed_data_order (o : ℤ → ℕ → String → ℚ × ℚ) :
    ∃ rs : List Record, seed_data o = some rs ∧
      rs.map recordKey = orderedKeys ∧
      (sample_sel rs).map recordKey =
        [("HCM", ⟨2024, 1, 31⟩), ("HN", ⟨2024, 1, 31⟩),
         ("DN", ⟨2024, 1, 31⟩), ("HCM", ⟨2025, 12, 31⟩),
         ("HN", ⟨2025, 12, 31⟩), ("DN", ⟨2025, 12, 31⟩)] := by
  refine ⟨seedRecords o, seed_data_eq o, seedRecords_keys o, ?_⟩
  simp only [sample_sel, List.map_append, List.map_take, List.map_drop,
    seedRecords_length, seedRecords_keys]
  decide

lemma isErrLine_errLine (e : PyErr) : isErrLine (errLine e) = true := by
  cases e <;> rfl

lemma main_model_of_ok (w : DbWorld) (h : (mainBody w).2 = none) :
    main_model w = ((mainBody w).1, Except.ok ()) := by
  rcases hmb : mainBody w with ⟨ls, r⟩
  rw [hmb] at h
  simp only at h
  subst h
  simp [main_model, hmb]

lemma main_model_of_err (w : DbWorld) (e : PyErr)
    (h : (mainBody w).2 = some e) :
    main_model w = ((mainBody w).1 ++ [errLine e], Except.error e) := by
  rcases hmb : mainBody w with ⟨ls, r⟩
  rw [hmb] at h
  simp only at h
  subst h
  simp [main_model, hmb]

lemma mainBody_lines_clean (w : DbWorld) : errCount (mainBody w).1 = 0 := by
  obtain ⟨c, cr, i, cm⟩ := w
  cases c <;> cases cr <;> cases i <;> cases cm <;> rfl

lemma mainBody_done_iff (w : DbWorld) :
    Line.doneBanner ∈ (mainBody w).1 ↔ (mainBody w).2 = none := by
  obtain ⟨c, cr, i, cm⟩ := w
  cases c <;> cases cr <;> cases i <;> cases cm <;> simp [mainBody]

/-- C9: `main` catches a failure from any stage exactly once at the outermost
level: on failure the transcript holds exactly one error-marker line, the
marker distinguishing database errors from other exceptions, and the same
exception is re-raised (never swallowed); on success the completion banner is
printed, no error line appears, and the process exits normally. -/
theorem main_catch_and_reraise (w : DbWorld) :
    ((mainBody w).2 = none →
      (main_model w).2 = Except.ok () ∧ errCount (main_model w).1 = 0 ∧
      Line.doneBanner ∈ (main_model w).1) ∧
    (∀ e : PyErr, (mainBody w).2 = some e →
      (main_model w).2 = Except.error e ∧ errCount (main_model w).1 = 1 ∧
      errLine e ∈ (main_model w).1 ∧
      Line.doneBanner ∉ (main_model w).1) := by
  constructor
  · intro h
    rw [main_model_of_ok w h]
    exact ⟨rfl, mainBody_lines_clean w, (mainBody_done_iff w).2 h⟩
  · intro e he
    rw [main_model_of_err w e he]
    refine ⟨rfl, ?_, ?_, ?_⟩
    · have h0 := mainBody_lines_clean w
      simp only [errCount, List.filter_append] at h0 ⊢
      simp [isErrLine_errLine, h0]
    · simp
    · intro hmem
      rcases List.mem_append.1 hmem with hin | hin
      · rw [mainBody_done_iff w] at hin
        rw [hin] at he
        exact Option.noConfusion he
      · cases e <;> simp [errLine] at hin

theorem main_catch_and_reraise_witness :
    (main_model ⟨Except.ok (), Except.ok (),
        Except.error (PyErr.dbError "insert failed"), Except.ok ()⟩).2 =
      Except.error (PyErr.dbError "insert failed") ∧
    errCount (main_model ⟨Except.ok (), Except.ok (),
        Except.error (PyErr.dbError "insert failed"), Except.ok ()⟩).1 = 1 ∧
    Line.dbErrorMsg "insert failed" ∈
      (main_model ⟨Except.ok (), Except.ok (),
        Except.error (PyErr.dbError "insert failed"), Except.ok ()⟩).1 := by
  have h := (main_catch_and_reraise ⟨Except.ok (), Except.ok (),
      Except.error (PyErr.dbError "insert failed"), Except.ok ()⟩).2
    (PyErr.dbError "insert failed") rfl
  exact ⟨h.1, h.2.1, h.2.2.1⟩
